import Mathlib

/-!
Shallow embedding of the CloudWalk transaction-monitoring core
(`src/transaction_monitor.py`): the rolling data store, the metric
aggregator, the hybrid anomaly detector and the alert register, together
with theorems settling the specification claims about them.

Python floats are modelled as rationals (`ℚ`); the one place where the
source can produce a float NaN (pandas sample standard deviation of a
single observation) is modelled explicitly by the `StdVal` type.
Wall-clock time is a parameter `now : Int`, timestamps are `Int` minutes.
-/

namespace TxMon

/-- One row of transaction data: `{'timestamp': ..., 'status': ..., 'count': ...}`
as appended to `TransactionDataStore.recent_data`.  `count` is `Int` because the
source performs no range validation on it. -/
structure Observation where
  timestamp : Int
  status : String
  count : Int
deriving DecidableEq, Repr

/-- Alert severity strings used by the detector. -/
inductive Severity where
  | INFO
  | WARNING
  | CRITICAL
deriving DecidableEq, Repr

/-- `MonitoringConfig.WINDOW_MEDIUM` (minutes). -/
def WINDOW_MEDIUM : Int := 15

/-- `MonitoringConfig.SIGMA_WARNING`. -/
def SIGMA_WARNING : ℚ := 2

/-- `MonitoringConfig.SIGMA_CRITICAL`. -/
def SIGMA_CRITICAL : ℚ := 3

/-- The `(warning, critical)` rate-threshold pairs.  The same literal dict
appears in both `AnomalyDetector._rule_based_check` and
`AnomalyDetector._get_threshold`, built from the `MonitoringConfig`
constants `FAILED_RATE_WARNING = 1.0`, `FAILED_RATE_CRITICAL = 2.0`,
`DENIED_RATE_WARNING = 10.0`, `DENIED_RATE_CRITICAL = 15.0`,
`REVERSED_RATE_WARNING = 2.0`, `REVERSED_RATE_CRITICAL = 4.0`,
`BACKEND_REVERSED_RATE_WARNING = 0.5`, `BACKEND_REVERSED_RATE_CRITICAL = 1.0`. -/
def rule_thresholds (status : String) : Option (ℚ × ℚ) :=
  if status = "failed" then some (1, 2)
  else if status = "denied" then some (10, 15)
  else if status = "reversed" then some (2, 4)
  else if status = "backend_reversed" then some (1/2, 1)
  else none

/-- A row of the per-status baseline table as consumed by
`AnomalyDetector._statistical_check`.  The Python baseline is a dict read
from the `baseline_stats` table; `_statistical_check` ignores it unless
`'mean_rate'` is a key (modelled by `Option StatusBaseline` at the use
site) and reads `'std_rate'` with default `1.0` (modelled by
`Option ℚ`). -/
structure StatusBaseline where
  mean_rate : ℚ
  std_rate : Option ℚ
deriving DecidableEq, Repr

/-- Result dict of `AnomalyDetector._rule_based_check` when it fires. -/
structure RuleResult where
  severity : Severity
  score : Nat
  threshold : ℚ
deriving DecidableEq, Repr

/-- Result dict of `AnomalyDetector._statistical_check` when it fires. -/
structure StatResult where
  severity : Severity
  score : Nat
  z_score : ℚ
deriving DecidableEq, Repr

/-- `AnomalyDetector._rule_based_check(status, rate)`. -/
def rule_based_check (status : String) (rate : ℚ) : Option RuleResult :=
  match rule_thresholds status with
  | none => none
  | some (warning_threshold, critical_threshold) =>
    if critical_threshold ≤ rate then
      some ⟨Severity.CRITICAL, 50, critical_threshold⟩
    else if warning_threshold ≤ rate then
      some ⟨Severity.WARNING, 30, warning_threshold⟩
    else none

/-- `AnomalyDetector._statistical_check(status, rate, baseline)`.
`baseline = none` models the Python guard
`if not baseline or 'mean_rate' not in baseline: return None`;
`std_rate = none` models a dict without the `'std_rate'` key, read via
`baseline.get('std_rate', 1.0)`.  The substitution `std = 1.0` happens
only on the exact test `std == 0`. -/
def statistical_check (rate : ℚ) (baseline : Option StatusBaseline) :
    Option StatResult :=
  match baseline with
  | none => none
  | some b =>
    let std0 := b.std_rate.getD 1
    let std := if std0 = 0 then 1 else std0
    let z := |(rate - b.mean_rate) / std|
    if SIGMA_CRITICAL ≤ z then some ⟨Severity.CRITICAL, 40, z⟩
    else if SIGMA_WARNING ≤ z then some ⟨Severity.WARNING, 25, z⟩
    else none

/-- The statistical check as the specification words it: the divisor is
`max(baseline.std_rate, 1.0)`, a floor at `1.0` applied whenever
`std_rate < 1.0`, not only at `std_rate == 0`.  Written from the spec for
comparison against `statistical_check`, which is written from the
source. -/
def statistical_check_specform (rate : ℚ) (baseline : Option StatusBaseline) :
    Option StatResult :=
  match baseline with
  | none => none
  | some b =>
    let std := max (b.std_rate.getD 1) 1
    let z := |rate - b.mean_rate| / std
    if SIGMA_CRITICAL ≤ z then some ⟨Severity.CRITICAL, 40, z⟩
    else if SIGMA_WARNING ≤ z then some ⟨Severity.WARNING, 25, z⟩
    else none

/-- `AnomalyDetector._get_threshold(status, severity)`. -/
def get_threshold (status : String) (severity : Severity) : ℚ :=
  match rule_thresholds status with
  | some (warning, critical) =>
    if severity = Severity.CRITICAL then critical else warning
  | none => 0

/-- The alert dict built by `AnomalyDetector._check_status_anomaly`
(the `message` and wall-clock `timestamp` fields carry no decision
content and are omitted). -/
structure Alert where
  status : String
  severity : Severity
  metric_value : ℚ
  threshold_value : ℚ
  anomaly_score : Nat
deriving DecidableEq, Repr

/-- `AnomalyDetector._check_status_anomaly(status, metrics)`, with the
`metrics['rate']` field passed directly and the baseline lookup
`self.data_store.baseline.get(status, {})` passed as `baseline`. -/
def check_status_anomaly (status : String) (rate : ℚ)
    (baseline : Option StatusBaseline) : Option Alert :=
  let rule_alert := rule_based_check status rate
  let stat_alert := statistical_check rate baseline
  if rule_alert.isSome || stat_alert.isSome then
    let score1 : Nat := match rule_alert with
      | some r => r.score
      | none => 0
    let sev1 : Severity := match rule_alert with
      | some r => r.severity
      | none => Severity.INFO
    let score2 : Nat := score1 + (match stat_alert with
      | some s => s.score
      | none => 0)
    let sev2 : Severity := match stat_alert with
      | none => sev1
      | some s =>
        if s.severity = Severity.CRITICAL then Severity.CRITICAL
        else if s.severity = Severity.WARNING ∧ sev1 ≠ Severity.CRITICAL then
          Severity.WARNING
        else sev1
    some { status := status
           severity := sev2
           metric_value := rate
           threshold_value := get_threshold status sev2
           anomaly_score := min 100 score2 }
  else none

/-- The per-status observation-level counts inside a window:
`df[df['status'] == status]['count']` in
`AnomalyDetector._calculate_metrics`. -/
def statusCounts (obs : List Observation) (s : String) : List Int :=
  (obs.filter (fun o => o.status = s)).map (fun o => o.count)

/-- `total = df['count'].sum()` in `AnomalyDetector._calculate_metrics`. -/
def totalCount (obs : List Observation) : Int :=
  (obs.map (fun o => o.count)).sum

/-- `rate = (count / total * 100) if total > 0 else 0`. -/
def statusRate (obs : List Observation) (s : String) : ℚ :=
  let total := totalCount obs
  if 0 < total then ((statusCounts obs s).sum : ℚ) / (total : ℚ) * 100 else 0

/-- A pandas float that may be NaN: `pd.Series.std()` with `ddof = 1`
returns NaN on fewer than two samples and otherwise the square root of
the sample variance.  The square root itself is kept symbolic (it is
never consumed arithmetically by the detector), so `sqrtOfVar v` stands
for the float `sqrt(v)`; the float `0.0` is `sqrtOfVar 0`. -/
inductive StdVal where
  | nan
  | sqrtOfVar (variance : ℚ)
deriving DecidableEq, Repr

/-- `pd.Series.mean()` over the counts (the detector only evaluates it on
statuses present in the window, hence on nonempty lists). -/
def sampleMean (xs : List Int) : ℚ :=
  ((xs.sum : ℚ)) / (xs.length : ℚ)

/-- `pd.Series.std()` (sample standard deviation, `ddof = 1`): NaN for
fewer than two samples, else `sqrt(Σ (x − mean)² / (n − 1))`. -/
def sampleStd (xs : List Int) : StdVal :=
  if xs.length ≤ 1 then StdVal.nan
  else StdVal.sqrtOfVar
    (((xs.map (fun x => ((x : ℚ) - sampleMean xs)^2)).sum) /
      ((xs.length : ℚ) - 1))

/-- The per-status entry of the metrics dict built by
`AnomalyDetector._calculate_metrics`. -/
structure StatusMetrics where
  count : Int
  rate : ℚ
  avg_per_minute : ℚ
  std_per_minute : StdVal
deriving DecidableEq, Repr

/-- `metrics[status]` as computed by `AnomalyDetector._calculate_metrics`
for a status present in the window. -/
def calc_status_metrics (obs : List Observation) (s : String) : StatusMetrics :=
  { count := (statusCounts obs s).sum
    rate := statusRate obs s
    avg_per_minute := sampleMean (statusCounts obs s)
    std_per_minute := sampleStd (statusCounts obs s) }

/-- `deque(maxlen := cap).append(x)`: the new element goes to the tail and
the oldest element is evicted when the deque is full. -/
def boundedAppend (cap : Nat) (xs : List α) (x : α) : List α :=
  if xs.length < cap then xs ++ [x] else xs.drop 1 ++ [x]

/-- Capacity of `TransactionDataStore.recent_data`
(`deque(maxlen=10000)`). -/
def STORE_CAP : Nat := 10000

/-- Capacity of `AlertNotificationSystem.alert_history`
(`deque(maxlen=100)`). -/
def ALERT_HISTORY_CAP : Nat := 100

/-- The in-memory effect of `TransactionDataStore.add_transaction`:
append to the bounded deque.  (The SQLite insert that follows is modelled
at the call sites by the `db_write_ok` flag.) -/
def add_transaction (store : List Observation) (o : Observation) :
    List Observation :=
  boundedAppend STORE_CAP store o

/-- `TransactionDataStore.get_recent_data(minutes)`: the retained
observations with `timestamp >= now - minutes`, in arrival order. -/
def get_recent_data (store : List Observation) (now minutes : Int) :
    List Observation :=
  store.filter (fun o => now - minutes ≤ o.timestamp)

/-- The result dict of `AnomalyDetector.analyze_transaction`. -/
structure AnalysisResult where
  should_alert : Bool
  alerts : List Alert
  anomaly_score : Nat
deriving DecidableEq, Repr

/-- The problem statuses iterated by `analyze_transaction`:
`['failed', 'denied', 'reversed', 'backend_reversed']`. -/
def monitored_statuses : List String :=
  ["failed", "denied", "reversed", "backend_reversed"]

/-- `problem_status in current_metrics`: the metrics dict has a key per
status occurring in the window (plus `'total'`, never a problem
status). -/
def statusPresent (obs : List Observation) (s : String) : Bool :=
  obs.any (fun o => o.status = s)

/-- `AnomalyDetector.analyze_transaction(timestamp, status, count)` with
the baseline table and the wall clock as parameters.  Returns the updated
in-memory store together with the result dict.  The success path of the
SQLite insert is assumed here; `receive_transaction` models its
failure. -/
def analyze_transaction (baseline : String → Option StatusBaseline)
    (store : List Observation) (now : Int)
    (timestamp : Int) (status : String) (count : Int) :
    List Observation × AnalysisResult :=
  let store1 := add_transaction store ⟨timestamp, status, count⟩
  let recent := get_recent_data store1 now WINDOW_MEDIUM
  if recent.length < 5 then
    (store1, ⟨false, [], 0⟩)
  else
    let alerts := monitored_statuses.filterMap (fun s =>
      if statusPresent recent s then
        check_status_anomaly s (calc_status_metrics recent s).rate (baseline s)
      else none)
    let score := alerts.foldl (fun m a => max m a.anomaly_score) 0
    (store1, ⟨decide (0 < alerts.length), alerts, score⟩)

/-- The JSON payload of `POST /api/transaction`; a `none` field models a
missing key. -/
structure Payload where
  timestamp : Option Int
  status : Option String
  count : Option Int
deriving DecidableEq, Repr

/-- The HTTP outcome of `receive_transaction`: 200 with the result, 400
for missing fields, or 500 when an exception reaches the
`except` handler. -/
inductive ApiResponse where
  | ok (result : AnalysisResult)
  | badRequest
  | serverError
deriving DecidableEq, Repr

/-- The `receive_transaction` endpoint.  Field validation happens first
(`400` on a missing key, no state touched).  Otherwise
`analyze_transaction` runs: its first step appends to the in-memory
deque, then inserts into SQLite; `db_write_ok = false` models that insert
raising.  The exception propagates to the endpoint's `except` block,
which logs and returns `500` — the in-memory append is not rolled
back. -/
def receive_transaction (db_write_ok : Bool)
    (baseline : String → Option StatusBaseline)
    (store : List Observation) (now : Int) (p : Payload) :
    List Observation × ApiResponse :=
  match p.timestamp, p.status, p.count with
  | some ts, some s, some c =>
    if db_write_ok then
      let r := analyze_transaction baseline store now ts s c
      (r.1, ApiResponse.ok r.2)
    else
      (add_transaction store ⟨ts, s, c⟩, ApiResponse.serverError)
  | _, _, _ => (store, ApiResponse.badRequest)

/-- The in-memory effect of `AlertNotificationSystem.send_alert`: append
to the bounded `alert_history` deque. -/
def send_alert (history : List Alert) (a : Alert) : List Alert :=
  boundedAppend ALERT_HISTORY_CAP history a

/-- `AlertNotificationSystem.get_recent_alerts(limit)`:
`list(self.alert_history)[-limit:]`.  Python slicing: for `limit > 0`
this is the last `limit` elements, for `limit = 0` it is the whole list
(`-0 == 0`), and for negative `limit` it drops the first `-limit`
elements. -/
def get_recent_alerts (history : List Alert) (limit : Int) : List Alert :=
  if limit ≤ 0 then history.drop (-limit).toNat
  else history.drop (history.length - limit.toNat)

/-- The rule-based score contribution of a status at a given rate: the
`score` field when `_rule_based_check` fires, `0` when it does not. -/
def ruleContribution (status : String) (rate : ℚ) : Nat :=
  match rule_based_check status rate with
  | some r => r.score
  | none => 0

/-- The statistical score contribution at a given rate and baseline: the
`score` field when `_statistical_check` fires, `0` when it does not. -/
def statContribution (rate : ℚ) (baseline : Option StatusBaseline) : Nat :=
  match statistical_check rate baseline with
  | some s => s.score
  | none => 0

/-- Concrete baseline table used to instantiate theorems: a baseline for
`"denied"` with `mean_rate = 5` and `std_rate = 1`, nothing else. -/
def blDenied : String → Option StatusBaseline := fun s =>
  if s = "denied" then some ⟨5, some 1⟩ else none

/-- Concrete store contents used to instantiate theorems: four approved
observations totalling 91 transactions at timestamp 0. -/
def storeApproved : List Observation :=
  [⟨0, "approved", 20⟩, ⟨0, "approved", 20⟩, ⟨0, "approved", 20⟩,
    ⟨0, "approved", 31⟩]

/-- The five-observation window obtained by ingesting `⟨0, "denied", 9⟩`
into `storeApproved`: total 100, denied rate 9%. -/
def windowDenied : List Observation :=
  [⟨0, "approved", 20⟩, ⟨0, "approved", 20⟩, ⟨0, "approved", 20⟩,
    ⟨0, "approved", 31⟩, ⟨0, "denied", 9⟩]

/-- The alert produced by checking `"failed"` at a 5% rate with no
baseline: the rule check alone fires CRITICAL with contribution 50. -/
def alertFailed5 : Alert := ⟨"failed", Severity.CRITICAL, 5, 2, 50⟩

/-- A concrete alert used to instantiate alert-register theorems. -/
def alertW1 : Alert := ⟨"failed", Severity.WARNING, 1, 1, 30⟩

/-- A second concrete alert used to instantiate alert-register
theorems. -/
def alertW2 : Alert := ⟨"denied", Severity.CRITICAL, 16, 15, 50⟩

/-! ## Helper lemmas -/

/-- Expansion of the per-status loop of `analyze_transaction` over the
literal list of monitored statuses. -/
theorem filterMap_monitored (f : String → Option α) :
    monitored_statuses.filterMap f =
      (f "failed").toList ++ (f "denied").toList ++
        (f "reversed").toList ++ (f "backend_reversed").toList := by
  cases h1 : f "failed" <;> cases h2 : f "denied" <;>
    cases h3 : f "reversed" <;> cases h4 : f "backend_reversed" <;>
      simp [monitored_statuses, h1, h2, h3, h4]

/-- Folding bounded appends from the empty deque retains exactly the last
`cap` elements, in arrival order. -/
theorem foldl_boundedAppend (cap : Nat) (hcap : 0 < cap) (ys : List α) :
    ys.foldl (boundedAppend cap) [] = ys.drop (ys.length - cap) := by
  induction ys using List.reverseRecOn with
  | nil => simp
  | append_singleton ys y ih =>
    rw [List.foldl_append, List.foldl_cons, List.foldl_nil, ih]
    have hlen : (ys ++ [y]).length = ys.length + 1 := by simp
    rw [hlen, boundedAppend]
    simp only [List.length_drop]
    by_cases h : ys.length < cap
    · rw [if_pos (by omega)]
      have h0 : ys.length - cap = 0 := by omega
      have h1 : ys.length + 1 - cap = 0 := by omega
      rw [h0, h1]
      simp
    · rw [if_neg (by omega), List.drop_drop,
        List.drop_append_of_le_length (by omega)]
      have harith : ys.length - cap + 1 = ys.length + 1 - cap := by omega
      rw [harith]

/-- A fired rule check carries exactly the severities and scores of the
source: CRITICAL with 50 or WARNING with 30. -/
theorem rule_based_check_shape {s : String} {rate : ℚ} {r : RuleResult}
    (h : rule_based_check s rate = some r) :
    (r.severity = Severity.CRITICAL ∧ r.score = 50) ∨
    (r.severity = Severity.WARNING ∧ r.score = 30) := by
  unfold rule_based_check at h
  cases ht : rule_thresholds s with
  | none => rw [ht] at h; exact absurd h (by simp)
  | some p =>
    obtain ⟨w, c⟩ := p
    rw [ht] at h
    dsimp only at h
    split_ifs at h <;>
      (rw [Option.some.injEq] at h
       subst h
       simp)

/-- A fired statistical check carries exactly the severities and scores
of the source: CRITICAL with 40 or WARNING with 25. -/
theorem statistical_check_shape {rate : ℚ} {b : Option StatusBaseline}
    {t : StatResult} (h : statistical_check rate b = some t) :
    (t.severity = Severity.CRITICAL ∧ t.score = 40) ∨
    (t.severity = Severity.WARNING ∧ t.score = 25) := by
  cases b with
  | none => exact absurd h (by simp [statistical_check])
  | some bb =>
    unfold statistical_check at h
    dsimp only at h
    split_ifs at h <;>
      (rw [Option.some.injEq] at h
       subst h
       simp)

/-- The initial accumulator is a lower bound of a `foldl max`. -/
theorem le_foldl_max (l : List Nat) (init : Nat) :
    init ≤ l.foldl max init := by
  induction l generalizing init with
  | nil => simp
  | cons a l ih =>
    rw [List.foldl_cons]
    exact le_trans (le_max_left init a) (ih (max init a))

/-- Every member of a list is bounded by its `foldl max`. -/
theorem mem_le_foldl_max {l : List Nat} {x : Nat} (hx : x ∈ l)
    (init : Nat) : x ≤ l.foldl max init := by
  induction l generalizing init with
  | nil => cases hx
  | cons a l ih =>
    rw [List.foldl_cons]
    rcases List.mem_cons.mp hx with rfl | hx'
    · exact le_trans (le_max_right init x) (le_foldl_max l (max init x))
    · exact ih hx' (max init a)

/-- A `foldl max` is the accumulator or one of the list members. -/
theorem foldl_max_eq_init_or_mem (l : List Nat) (init : Nat) :
    l.foldl max init = init ∨ l.foldl max init ∈ l := by
  induction l generalizing init with
  | nil => exact Or.inl rfl
  | cons a l ih =>
    rw [List.foldl_cons]
    rcases ih (max init a) with h | h
    · rw [h]
      rcases Nat.le_total init a with hle | hle
      · exact Or.inr (by simp [Nat.max_eq_right hle])
      · exact Or.inl (Nat.max_eq_left hle)
    · exact Or.inr (List.mem_cons_of_mem a h)

/-- Full evaluation of an ingest on the concrete five-observation window
`windowDenied`: the denied rate is 9%, below its rule warning threshold,
but four baseline standard deviations above the `blDenied` mean, so a
single statistics-only CRITICAL alert with score 40 is produced. -/
theorem analyze_windowDenied :
    analyze_transaction blDenied storeApproved 0 0 "denied" 9 =
      (windowDenied,
        ⟨true, [⟨"denied", Severity.CRITICAL, 9, 15, 40⟩], 40⟩) := by
  have hstore : add_transaction storeApproved ⟨0, "denied", 9⟩ =
      windowDenied := by
    simp [add_transaction, boundedAppend, storeApproved, windowDenied,
      STORE_CAP]
  have hrecent : get_recent_data windowDenied 0 WINDOW_MEDIUM =
      windowDenied := by
    simp [get_recent_data, WINDOW_MEDIUM, windowDenied]
  rw [analyze_transaction, hstore, hrecent, filterMap_monitored]
  simp only [windowDenied, statusPresent, blDenied, check_status_anomaly,
    rule_based_check, statistical_check, rule_thresholds,
    calc_status_metrics, statusRate, statusCounts, totalCount,
    get_threshold, SIGMA_WARNING, SIGMA_CRITICAL, sampleMean, sampleStd]
  simp
  norm_num

/-- The in-memory store after `analyze_transaction` is always the bounded
append of the ingested observation, on both branches of the
insufficient-data guard. -/
theorem analyze_fst (bl : String → Option StatusBaseline)
    (store : List Observation) (now ts : Int) (s : String) (c : Int) :
    (analyze_transaction bl store now ts s c).1 =
      add_transaction store ⟨ts, s, c⟩ := by
  unfold analyze_transaction
  dsimp only
  split <;> rfl

/-- Every alert built by `_check_status_anomaly` carries the checked
status, the window rate, and the `_get_threshold` lookup at its own final
severity. -/
theorem check_fields {s : String} {rate : ℚ} {b : Option StatusBaseline}
    {a : Alert} (h : check_status_anomaly s rate b = some a) :
    a.status = s ∧ a.metric_value = rate ∧
      a.threshold_value = get_threshold s a.severity := by
  unfold check_status_anomaly at h
  dsimp only at h
  split_ifs at h
  rw [Option.some.injEq] at h
  subst h
  exact ⟨rfl, rfl, rfl⟩

/-- Characterisation of the running maximum
`max_anomaly_score = max(max_anomaly_score, alert['anomaly_score'])`
accumulated over an alert list starting from `0`. -/
theorem alert_score_fold (L : List Alert) :
    (∀ x ∈ L, x.anomaly_score ≤
      L.foldl (fun m a => max m a.anomaly_score) 0) ∧
    (L = [] → L.foldl (fun m a => max m a.anomaly_score) 0 = 0) ∧
    (L ≠ [] → ∃ x ∈ L,
      L.foldl (fun m a => max m a.anomaly_score) 0 = x.anomaly_score) := by
  have hrw : L.foldl (fun m a => max m a.anomaly_score) 0 =
      (L.map Alert.anomaly_score).foldl max 0 :=
    (List.foldl_map Alert.anomaly_score max L 0).symm
  refine ⟨?_, ?_, ?_⟩
  · intro x hx
    rw [hrw]
    exact mem_le_foldl_max (List.mem_map_of_mem Alert.anomaly_score hx) 0
  · intro h
    subst h
    rfl
  · intro hne
    rcases foldl_max_eq_init_or_mem (L.map Alert.anomaly_score) 0 with h0 | hm
    · obtain ⟨x, hx⟩ := List.exists_mem_of_ne_nil L hne
      refine ⟨x, hx, ?_⟩
      have hle := mem_le_foldl_max (List.mem_map_of_mem Alert.anomaly_score hx) 0
      rw [hrw]
      omega
    · rw [hrw]
      obtain ⟨x, hx, hscore⟩ := List.mem_map.mp hm
      exact ⟨x, hx, hscore.symm⟩

/-! ## Claim theorems -/

/-- C1 counterexample: against a baseline with `mean_rate = 0` and
`std_rate = 1/2`, at window rate `3/2` the source divides by the raw
`std_rate` (only an exact zero is replaced by `1.0`), giving `z = 3` and
a CRITICAL statistical alert with contribution 40, whereas the divisor
`max(std_rate, 1.0)` stated by the claim would give `z = 3/2` and no
statistical alert at all — so the claim's description of the divisor is
false of the code. -/
theorem C1_counterexample :
    statistical_check (3/2) (some ⟨0, some (1/2)⟩) =
        some ⟨Severity.CRITICAL, 40, 3⟩ ∧
      statistical_check_specform (3/2) (some ⟨0, some (1/2)⟩) = none ∧
      statistical_check (3/2) (some ⟨0, some (1/2)⟩) ≠
        statistical_check_specform (3/2) (some ⟨0, some (1/2)⟩) := by
  have h1 : statistical_check (3/2) (some ⟨0, some (1/2)⟩) =
      some ⟨Severity.CRITICAL, 40, 3⟩ := by
    norm_num [statistical_check, SIGMA_CRITICAL, abs_of_nonneg]
  have h2 : statistical_check_specform (3/2) (some ⟨0, some (1/2)⟩) =
      none := by
    norm_num [statistical_check_specform, SIGMA_CRITICAL, SIGMA_WARNING,
      abs_of_nonneg]
  refine ⟨h1, h2, ?_⟩
  rw [h1, h2]
  simp

/-- C1 amended: with a loaded baseline the statistical check computes
`z = |(rate − mean_rate) / std|` where `std` is `std_rate` itself
(defaulting to `1.0` when the field is absent), replaced by `1.0` only
when it is exactly zero — not floored by `max(std_rate, 1.0)` — and fires
CRITICAL (contribution 40) when `z ≥ 3.0`, WARNING (contribution 25) when
`2.0 ≤ z < 3.0`, and nothing otherwise; without a baseline it never
fires. -/
theorem C1_amended (rate mean : ℚ) (stdOpt : Option ℚ) (d z : ℚ)
    (hd : d = if stdOpt.getD 1 = 0 then 1 else stdOpt.getD 1)
    (hz : z = |(rate - mean) / d|) :
    (3 ≤ z → statistical_check rate (some ⟨mean, stdOpt⟩) =
      some ⟨Severity.CRITICAL, 40, z⟩) ∧
    (2 ≤ z ∧ z < 3 → statistical_check rate (some ⟨mean, stdOpt⟩) =
      some ⟨Severity.WARNING, 25, z⟩) ∧
    (z < 2 → statistical_check rate (some ⟨mean, stdOpt⟩) = none) ∧
    statistical_check rate none = none := by
  subst hd hz
  refine ⟨?_, ?_, ?_, rfl⟩
  · intro h
    simp only [statistical_check, SIGMA_CRITICAL]
    rw [if_pos h]
  · rintro ⟨h2, h3⟩
    simp only [statistical_check, SIGMA_CRITICAL, SIGMA_WARNING]
    rw [if_neg (by linarith), if_pos h2]
  · intro h
    simp only [statistical_check, SIGMA_CRITICAL, SIGMA_WARNING]
    rw [if_neg (by linarith), if_neg (by linarith)]

/-- C1 amended, witness: the counterexample input instantiates the
amended claim, with the CRITICAL branch taken at `z = 3`. -/
theorem C1_amended_witness :
    statistical_check (3/2) (some ⟨0, some (1/2)⟩) =
      some ⟨Severity.CRITICAL, 40, 3⟩ :=
  (C1_amended (3/2) 0 (some (1/2)) (1/2) 3 (by norm_num)
    (by norm_num)).1 (by norm_num)

/-- C2: if, after the ingested observation is appended, the 15-minute
window retains 4 or fewer observations, `analyze_transaction` returns the
insufficient-data result: `should_alert = false`, no alerts, and
`anomaly_score = 0` — so an ingest with 4 or fewer observations in the
window never alerts. -/
theorem C2_insufficient_window (bl : String → Option StatusBaseline)
    (store : List Observation) (now ts : Int) (s : String) (c : Int)
    (h : (get_recent_data (add_transaction store ⟨ts, s, c⟩) now
      WINDOW_MEDIUM).length ≤ 4) :
    (analyze_transaction bl store now ts s c).2 = ⟨false, [], 0⟩ := by
  unfold analyze_transaction
  dsimp only
  rw [if_pos (by omega)]

/-- C2 witness: ingesting a single observation into an empty store leaves
one observation in the window, and the result is the no-alert
insufficient-data result. -/
theorem C2_witness :
    (get_recent_data (add_transaction [] ⟨0, "failed", 5⟩) 0
        WINDOW_MEDIUM).length ≤ 4 ∧
      (analyze_transaction (fun _ => none) [] 0 0 "failed" 5).2 =
        ⟨false, [], 0⟩ :=
  ⟨by simp [get_recent_data, add_transaction, boundedAppend, STORE_CAP,
      WINDOW_MEDIUM],
    C2_insufficient_window (fun _ => none) [] 0 0 "failed" 5
      (by simp [get_recent_data, add_transaction, boundedAppend, STORE_CAP,
        WINDOW_MEDIUM])⟩

/-- C5 counterexample: with the durable write failing, a valid ingest of
`{timestamp: 0, status: "approved", count: 7}` into an empty store leaves
the observation appended in memory but returns the 500 error response —
the durable-storage failure surfaces to the caller as a user-visible
error, refuting "the ingest call still succeeds, the failure is only
logged". -/
theorem C5_counterexample :
    receive_transaction false (fun _ => none) [] 0
        ⟨some 0, some "approved", some 7⟩ =
      ([⟨0, "approved", 7⟩], ApiResponse.serverError) := by
  simp [receive_transaction, add_transaction, boundedAppend, STORE_CAP]

/-- C5 amended: a failure of the durable-storage write never rolls back
the in-memory append — the window state is identical to the successful
case — but it does surface to the caller: the exception propagates to the
endpoint handler, which returns the 500 error response instead of a
successful ingest result. -/
theorem C5_amended (bl : String → Option StatusBaseline)
    (store : List Observation) (now ts : Int) (s : String) (c : Int) :
    receive_transaction false bl store now ⟨some ts, some s, some c⟩ =
        (add_transaction store ⟨ts, s, c⟩, ApiResponse.serverError) ∧
      (receive_transaction false bl store now ⟨some ts, some s, some c⟩).1 =
        (receive_transaction true bl store now ⟨some ts, some s, some c⟩).1 := by
  constructor
  · rfl
  · show add_transaction store ⟨ts, s, c⟩ =
      (analyze_transaction bl store now ts s c).1
    exact (analyze_fst bl store now ts s c).symm

/-- C6 counterexample: a window holding exactly one `"failed"`
observation makes the aggregator report a NaN sample standard deviation
(pandas `std()` with `ddof = 1` on one sample), not the float `0.0` the
claim states. -/
theorem C6_counterexample :
    (calc_status_metrics [⟨0, "failed", 5⟩] "failed").std_per_minute =
        StdVal.nan ∧
      StdVal.nan ≠ StdVal.sqrtOfVar 0 := by
  constructor
  · simp [calc_status_metrics, sampleStd, statusCounts]
  · simp

/-- C6 amended: for a status with exactly one observation in the window,
`std_per_period` is reported as NaN (pandas sample standard deviation
with `ddof = 1` is undefined on a single sample), not 0. -/
theorem C6_amended (obs : List Observation) (s : String)
    (h : (statusCounts obs s).length = 1) :
    (calc_status_metrics obs s).std_per_minute = StdVal.nan := by
  simp [calc_status_metrics, sampleStd, h]

/-- C6 amended, witness: the one-observation window of the
counterexample. -/
theorem C6_amended_witness :
    (statusCounts [⟨0, "failed", 5⟩] "failed").length = 1 ∧
      (calc_status_metrics [⟨0, "failed", 5⟩] "failed").std_per_minute =
        StdVal.nan :=
  ⟨by simp [statusCounts],
    C6_amended [⟨0, "failed", 5⟩] "failed" (by simp [statusCounts])⟩

/-- C7: over a window of non-negative counts, a status rate is
`100·count/total` whenever the total is non-zero, every rate is `0` when
the total is `0`, and the computation is total — in particular it is safe
on the empty window, where every rate is `0`. -/
theorem C7_rate_safety (obs : List Observation) (s : String)
    (hpos : ∀ o ∈ obs, 0 ≤ o.count) :
    (totalCount obs = 0 → statusRate obs s = 0) ∧
      (totalCount obs ≠ 0 →
        statusRate obs s =
          100 * ((statusCounts obs s).sum : ℚ) / (totalCount obs : ℚ)) ∧
      statusRate ([] : List Observation) s = 0 := by
  refine ⟨?_, ?_, ?_⟩
  · intro h0
    simp [statusRate, h0]
  · intro hne
    have hnn : 0 ≤ totalCount obs := by
      apply List.sum_nonneg
      intro x hx
      obtain ⟨o, ho, rfl⟩ := List.mem_map.mp hx
      exact hpos o ho
    have hlt : 0 < totalCount obs := lt_of_le_of_ne hnn (Ne.symm hne)
    simp only [statusRate, if_pos hlt]
    ring
  · simp [statusRate, totalCount]

/-- C7 witness: the concrete five-observation window with total 100 and
denied rate 9%. -/
theorem C7_witness :
    (∀ o ∈ windowDenied, 0 ≤ o.count) ∧
      ((totalCount windowDenied = 0 → statusRate windowDenied "denied" = 0) ∧
        (totalCount windowDenied ≠ 0 →
          statusRate windowDenied "denied" =
            100 * ((statusCounts windowDenied "denied").sum : ℚ) /
              (totalCount windowDenied : ℚ)) ∧
        statusRate ([] : List Observation) "denied" = 0) :=
  ⟨by decide, C7_rate_safety windowDenied "denied" (by decide)⟩

/-- C4 counterexample: an observation with the negative count `-5` and
all fields present passes validation, enters the in-memory store, and the
ingest returns the 200 success response — negative counts are not
rejected and state is mutated, refuting the claim. -/
theorem C4_counterexample :
    receive_transaction true (fun _ => none) [] 0
        ⟨some 0, some "failed", some (-5)⟩ =
      ([⟨0, "failed", -5⟩], ApiResponse.ok ⟨false, [], 0⟩) := by
  simp [receive_transaction, analyze_transaction, add_transaction,
    boundedAppend, STORE_CAP, get_recent_data, WINDOW_MEDIUM]

/-- C4 amended: only observations missing one of
`timestamp`/`status`/`count` are rejected before entering the store, with
the error surfaced and no state mutated; an observation with a negative
count passes validation and is appended to the window like any other
observation, with the ingest succeeding. -/
theorem C4_amended (db : Bool) (bl : String → Option StatusBaseline)
    (store : List Observation) (now : Int) (p : Payload) :
    ((p.timestamp = none ∨ p.status = none ∨ p.count = none) →
      receive_transaction db bl store now p = (store, ApiResponse.badRequest)) ∧
    (∀ (ts : Int) (s : String) (c : Int), c < 0 →
      receive_transaction true bl store now ⟨some ts, some s, some c⟩ =
        (add_transaction store ⟨ts, s, c⟩,
          ApiResponse.ok (analyze_transaction bl store now ts s c).2)) := by
  constructor
  · intro hmiss
    obtain ⟨pt, ps, pc⟩ := p
    cases pt <;> cases ps <;> cases pc <;>
      simp_all [receive_transaction]
  · intro ts s c _
    have hred : receive_transaction true bl store now ⟨some ts, some s, some c⟩ =
        ((analyze_transaction bl store now ts s c).1,
          ApiResponse.ok (analyze_transaction bl store now ts s c).2) := rfl
    rw [hred, analyze_fst]

/-- C4 amended, witness: a payload missing its timestamp is rejected with
no state change; the valid payload with count `-5` is appended and
analysed. -/
theorem C4_amended_witness :
    receive_transaction true (fun _ => none) [] 0
        ⟨none, some "failed", some 5⟩ = ([], ApiResponse.badRequest) ∧
      receive_transaction true (fun _ => none) [] 0
          ⟨some 0, some "failed", some (-5)⟩ =
        (add_transaction [] ⟨0, "failed", -5⟩,
          ApiResponse.ok
            (analyze_transaction (fun _ => none) [] 0 0 "failed" (-5)).2) :=
  ⟨(C4_amended true (fun _ => none) [] 0
      ⟨none, some "failed", some 5⟩).1 (Or.inl rfl),
    (C4_amended true (fun _ => none) [] 0
      ⟨some 0, some "failed", some (-5)⟩).2 0 "failed" (-5) (by norm_num)⟩

/-- C9: appending `C + 1` observations to the empty rolling store leaves
exactly `C = 10000` retained with the oldest evicted first (the retained
list is the input minus its head, in arrival order); the alert history
keeps the same invariant at its independent capacity `100`. -/
theorem C9_capacity (ys : List Observation) (zs : List Alert)
    (hy : ys.length = STORE_CAP + 1)
    (hz : zs.length = ALERT_HISTORY_CAP + 1) :
    (ys.foldl add_transaction []).length = STORE_CAP ∧
      ys.foldl add_transaction [] = ys.drop 1 ∧
      (zs.foldl send_alert []).length = ALERT_HISTORY_CAP ∧
      zs.foldl send_alert [] = zs.drop 1 := by
  have h1 : ys.foldl add_transaction [] = ys.drop (ys.length - STORE_CAP) :=
    foldl_boundedAppend STORE_CAP (by norm_num [STORE_CAP]) ys
  have h2 : zs.foldl send_alert [] = zs.drop (zs.length - ALERT_HISTORY_CAP) :=
    foldl_boundedAppend ALERT_HISTORY_CAP (by norm_num [ALERT_HISTORY_CAP]) zs
  have hy1 : ys.length - STORE_CAP = 1 := by omega
  have hz1 : zs.length - ALERT_HISTORY_CAP = 1 := by omega
  rw [hy1] at h1
  rw [hz1] at h2
  refine ⟨?_, h1, ?_, h2⟩
  · rw [h1, List.length_drop]
    omega
  · rw [h2, List.length_drop]
    omega

/-- C9 witness: concrete lists of `10001` observations and `101`
alerts. -/
theorem C9_witness :
    (List.replicate (STORE_CAP + 1)
        (⟨0, "approved", 1⟩ : Observation)).length = STORE_CAP + 1 ∧
      (List.replicate (ALERT_HISTORY_CAP + 1) alertW1).length =
        ALERT_HISTORY_CAP + 1 ∧
      ((List.replicate (STORE_CAP + 1)
          (⟨0, "approved", 1⟩ : Observation)).foldl add_transaction
            []).length = STORE_CAP :=
  ⟨by simp, by simp,
    (C9_capacity (List.replicate (STORE_CAP + 1) ⟨0, "approved", 1⟩)
      (List.replicate (ALERT_HISTORY_CAP + 1) alertW1)
      (by simp) (by simp)).1⟩

/-- C10: `get_recent_alerts` called with `limit = 0` returns the entire
retained history (which the register's bounded deque keeps at no more
than 100 alerts), not an empty list; for `limit ≥ 1` it returns the last
`min limit length` alerts as a suffix of the history, i.e. in arrival
order with the newest at the end. -/
theorem C10_recent_alerts (h : List Alert) :
    get_recent_alerts h 0 = h ∧
      (∀ n : Int, 1 ≤ n →
        (get_recent_alerts h n).length = min n.toNat h.length ∧
          List.IsSuffix (get_recent_alerts h n) h) ∧
      (∀ as : List Alert, (as.foldl send_alert []).length ≤
        ALERT_HISTORY_CAP) := by
  refine ⟨?_, ?_, ?_⟩
  · simp [get_recent_alerts]
  · intro n hn
    have hn' : ¬n ≤ 0 := by omega
    constructor
    · simp only [get_recent_alerts, if_neg hn', List.length_drop]
      omega
    · simp only [get_recent_alerts, if_neg hn']
      exact List.drop_suffix _ _
  · intro as
    have hfold : as.foldl send_alert [] =
        as.drop (as.length - ALERT_HISTORY_CAP) :=
      foldl_boundedAppend ALERT_HISTORY_CAP
        (by norm_num [ALERT_HISTORY_CAP]) as
    rw [hfold, List.length_drop]
    omega

/-- C10 witness: a two-alert history; `limit = 0` returns both alerts,
`limit = 1` returns the single newest alert as a suffix. -/
theorem C10_witness :
    get_recent_alerts [alertW1, alertW2] 0 = [alertW1, alertW2] ∧
      (1 : Int) ≤ 1 ∧
      (get_recent_alerts [alertW1, alertW2] 1).length =
        min (1 : Int).toNat ([alertW1, alertW2] : List Alert).length ∧
      List.IsSuffix (get_recent_alerts [alertW1, alertW2] 1)
        [alertW1, alertW2] :=
  ⟨(C10_recent_alerts [alertW1, alertW2]).1, by norm_num,
    ((C10_recent_alerts [alertW1, alertW2]).2.1 1 (by norm_num)).1,
    ((C10_recent_alerts [alertW1, alertW2]).2.1 1 (by norm_num)).2⟩

/-- C3: every alert built by the combiner has
`anomaly_score = min(100, ruleContribution + statContribution)` (each
contribution 0 when that check did not fire; 50/30 rule, 40/25
statistical), severity CRITICAL exactly when either check was CRITICAL
and WARNING otherwise, and score within `[0, 100]`; and the per-ingest
`anomaly_score` is the maximum of the emitted alerts' scores, `0` when
none is emitted. -/
theorem C3_combination :
    (∀ (s : String) (rate : ℚ) (b : Option StatusBaseline) (a : Alert),
      check_status_anomaly s rate b = some a →
      a.anomaly_score =
          min 100 (ruleContribution s rate + statContribution rate b) ∧
        a.anomaly_score ≤ 100 ∧
        ((a.severity = Severity.CRITICAL ↔
          (∃ r, rule_based_check s rate = some r ∧
            r.severity = Severity.CRITICAL) ∨
          (∃ t, statistical_check rate b = some t ∧
            t.severity = Severity.CRITICAL)) ∧
        (a.severity = Severity.CRITICAL ∨ a.severity = Severity.WARNING))) ∧
    (∀ (bl : String → Option StatusBaseline) (store : List Observation)
      (now ts : Int) (st : String) (c : Int),
      (∀ x ∈ (analyze_transaction bl store now ts st c).2.alerts,
        x.anomaly_score ≤
          (analyze_transaction bl store now ts st c).2.anomaly_score) ∧
      ((analyze_transaction bl store now ts st c).2.alerts = [] →
        (analyze_transaction bl store now ts st c).2.anomaly_score = 0) ∧
      ((analyze_transaction bl store now ts st c).2.alerts ≠ [] →
        ∃ x ∈ (analyze_transaction bl store now ts st c).2.alerts,
          (analyze_transaction bl store now ts st c).2.anomaly_score =
            x.anomaly_score)) := by
  constructor
  · intro s rate b a h
    unfold check_status_anomaly at h
    dsimp only at h
    split_ifs at h with hfire
    rw [Option.some.injEq] at h
    subst h
    refine ⟨?_, Nat.min_le_left 100 _, ?_⟩
    · simp [ruleContribution, statContribution]
    · cases hr : rule_based_check s rate with
      | none =>
        cases hst : statistical_check rate b with
        | none =>
          rw [hr, hst] at hfire
          simp at hfire
        | some t =>
          rcases statistical_check_shape hst with ⟨h1, _⟩ | ⟨h1, _⟩ <;>
            simp [hr, hst, h1]
      | some r =>
        cases hst : statistical_check rate b with
        | none =>
          rcases rule_based_check_shape hr with ⟨h1, _⟩ | ⟨h1, _⟩ <;>
            simp [hr, hst, h1]
        | some t =>
          rcases rule_based_check_shape hr with ⟨h1, _⟩ | ⟨h1, _⟩ <;>
            rcases statistical_check_shape hst with ⟨h2, _⟩ | ⟨h2, _⟩ <;>
              simp [hr, hst, h1, h2]
  · intro bl store now ts st c
    unfold analyze_transaction
    dsimp only
    split_ifs with hlen
    · simp
    · dsimp only
      exact ⟨(alert_score_fold _).1, (alert_score_fold _).2.1,
        (alert_score_fold _).2.2⟩

/-- C3 witness: the rule-only CRITICAL alert at a 5% failed rate with no
baseline (score `min 100 (50 + 0) = 50`), and the concrete statistical
ingest of the denied scenario for the per-ingest maximum. -/
theorem C3_witness :
    check_status_anomaly "failed" 5 none = some alertFailed5 ∧
      (alertFailed5.anomaly_score =
          min 100 (ruleContribution "failed" 5 + statContribution 5 none) ∧
        alertFailed5.anomaly_score ≤ 100 ∧
        ((alertFailed5.severity = Severity.CRITICAL ↔
          (∃ r, rule_based_check "failed" 5 = some r ∧
            r.severity = Severity.CRITICAL) ∨
          (∃ t, statistical_check 5 none = some t ∧
            t.severity = Severity.CRITICAL)) ∧
        (alertFailed5.severity = Severity.CRITICAL ∨
          alertFailed5.severity = Severity.WARNING))) ∧
      (∀ x ∈ (analyze_transaction blDenied storeApproved 0 0
          "denied" 9).2.alerts,
        x.anomaly_score ≤ (analyze_transaction blDenied storeApproved 0 0
          "denied" 9).2.anomaly_score) := by
  have heval : check_status_anomaly "failed" 5 none = some alertFailed5 := by
    norm_num [check_status_anomaly, rule_based_check, statistical_check,
      rule_thresholds, get_threshold, alertFailed5]
  exact ⟨heval, C3_combination.1 "failed" 5 none alertFailed5 heval,
    (C3_combination.2 blDenied storeApproved 0 0 "denied" 9).1⟩

/-- C8: every alert emitted by an ingest reports as `threshold_value` the
rule-threshold pair entry of its status matching its final severity —
the critical value for CRITICAL, the warning value for WARNING — even
when the rule check itself did not fire. -/
theorem C8_threshold (bl : String → Option StatusBaseline)
    (store : List Observation) (now ts : Int) (st : String) (c : Int)
    (a : Alert)
    (ha : a ∈ (analyze_transaction bl store now ts st c).2.alerts) :
    ∃ w cr, rule_thresholds a.status = some (w, cr) ∧
      a.threshold_value =
        (if a.severity = Severity.CRITICAL then cr else w) := by
  unfold analyze_transaction at ha
  dsimp only at ha
  split_ifs at ha with hlen
  · simp at ha
  · dsimp only at ha
    rw [List.mem_filterMap] at ha
    obtain ⟨s, hs, hfs⟩ := ha
    split_ifs at hfs with hp
    obtain ⟨hst, _, hthr⟩ := check_fields hfs
    rw [hst, hthr]
    simp only [monitored_statuses, List.mem_cons, List.not_mem_nil,
      or_false] at hs
    rcases hs with rfl | rfl | rfl | rfl
    · exact ⟨1, 2, by simp [rule_thresholds],
        by simp [get_threshold, rule_thresholds]⟩
    · exact ⟨10, 15, by simp [rule_thresholds],
        by simp [get_threshold, rule_thresholds]⟩
    · exact ⟨2, 4, by simp [rule_thresholds],
        by simp [get_threshold, rule_thresholds]⟩
    · exact ⟨1/2, 1, by simp [rule_thresholds],
        by simp [get_threshold, rule_thresholds]⟩

/-- C8 witness: in the concrete denied scenario the rule check does not
fire (9% < 10%) yet the emitted statistics-only CRITICAL alert reports
the denied critical rule threshold 15. -/
theorem C8_witness :
    (⟨"denied", Severity.CRITICAL, 9, 15, 40⟩ : Alert) ∈
        (analyze_transaction blDenied storeApproved 0 0
          "denied" 9).2.alerts ∧
      ∃ w cr,
        rule_thresholds
          (⟨"denied", Severity.CRITICAL, 9, 15, 40⟩ : Alert).status =
            some (w, cr) ∧
        (⟨"denied", Severity.CRITICAL, 9, 15, 40⟩ : Alert).threshold_value =
          (if (⟨"denied", Severity.CRITICAL, 9, 15, 40⟩ : Alert).severity =
            Severity.CRITICAL then cr else w) := by
  have hmem : (⟨"denied", Severity.CRITICAL, 9, 15, 40⟩ : Alert) ∈
      (analyze_transaction blDenied storeApproved 0 0 "denied" 9).2.alerts := by
    rw [analyze_windowDenied]
    simp
  exact ⟨hmem, C8_threshold blDenied storeApproved 0 0 "denied" 9 _ hmem⟩

end TxMon
